import Mathlib

/-!
Shallow embedding of the cart/product CRUD backend (Hono + SQLite service):
the cart service module (`cart.ts`), the products router (`products.ts`) and
the HTTP façade routes (`index.ts`).

Modelling conventions:
* SQL tables are Lean lists in row (insertion) order; `INSERT` appends,
  `UPDATE ... WHERE` maps over rows, `DELETE ... WHERE` filters,
  `SELECT ... LIMIT 1` / `.get` is `List.find?` (first match in row order),
  `ORDER BY` is `List.insertionSort` with the corresponding relation.
* TEXT columns are `String`, INTEGER quantity columns are `Int`,
  REAL price columns are `Rat`, ISO-8601 timestamp strings are `Nat`
  (string comparison of ISO timestamps is order-isomorphic to time order).
* Generated values (`crypto.randomUUID()`, `new Date()`, upload file names)
  are passed in as explicit parameters.
-/

namespace Shop

/-- Row of the `products` table (`products.ts`: type Product). -/
structure Product where
  id : String
  name : String
  description : String
  price : Rat
  sku : String
  createdAt : Nat
deriving DecidableEq

/-- Row of the `product_images` table (`products.ts`: type ProductImage). -/
structure ProductImage where
  id : String
  productId : String
  url : String
  position : Nat
  createdAt : Nat
deriving DecidableEq

/-- Row of the `carts` table. -/
structure Cart where
  id : String
  sessionId : String
  createdAt : Nat
  updatedAt : Nat
deriving DecidableEq

/-- Row of the `cart_items` table. -/
structure CartItem where
  id : String
  cartId : String
  productId : String
  quantity : Int
  createdAt : Nat
  updatedAt : Nat
deriving DecidableEq

/-- The SQLite database state: the four tables, each in row order. -/
structure DB where
  products : List Product
  images : List ProductImage
  carts : List Cart
  cartItems : List CartItem
deriving DecidableEq

/-- `statements.getProductById`: `SELECT * FROM products WHERE id = ?`. -/
def getProductById (db : DB) (id : String) : Option Product :=
  db.products.find? (fun p => p.id == id)

/-- `statements.getProductBySku`: `SELECT * FROM products WHERE sku = ?`. -/
def getProductBySku (db : DB) (sku : String) : Option Product :=
  db.products.find? (fun p => p.sku == sku)

/-! ## Cart service (`cart.ts`) -/

/-- `createCart`: inserts a cart row; the returned object (empty items,
zero totals) is not needed by any claim, so only the state change is kept. -/
def createCart (db : DB) (sessionId : String) (freshId : String) (now : Nat) : DB :=
  { db with carts := db.carts ++ [⟨freshId, sessionId, now, now⟩] }

/-- The row lookup inside `addToCart`:
`SELECT * FROM cart_items WHERE cart_id = ? AND product_id = ?` via `.get`. -/
def findPairItem (items : List CartItem) (cartId productId : String) : Option CartItem :=
  items.find? (fun it => it.cartId == cartId && it.productId == productId)

/-- `addToCart cartId productId quantity`: if a row for the (cart, product)
pair exists, `UPDATE cart_items SET quantity = quantity + ?, updated_at = ?
WHERE id = ?` and return the old row with the incremented quantity (the
returned object keeps the old `updatedAt`, as in the source); otherwise
insert a fresh row. -/
def addToCart (db : DB) (cartId productId : String) (quantity : Int)
    (freshId : String) (now : Nat) : DB × CartItem :=
  match findPairItem db.cartItems cartId productId with
  | some existingItem =>
      ({ db with cartItems := db.cartItems.map (fun it =>
            if it.id == existingItem.id then
              { it with quantity := it.quantity + quantity, updatedAt := now }
            else it) },
       { existingItem with quantity := existingItem.quantity + quantity })
  | none =>
      let item : CartItem :=
        ⟨freshId, cartId, productId, quantity, now, now⟩
      ({ db with cartItems := db.cartItems ++ [item] }, item)

/-- `updateCartItem itemId quantity`: `UPDATE cart_items SET quantity = ?,
updated_at = ? WHERE id = ?`, then `SELECT * FROM cart_items WHERE id = ?`. -/
def updateCartItem (db : DB) (itemId : String) (quantity : Int) (now : Nat) :
    DB × Option CartItem :=
  let db' := { db with cartItems := db.cartItems.map (fun it =>
      if it.id == itemId then { it with quantity := quantity, updatedAt := now }
      else it) }
  (db', db'.cartItems.find? (fun it => it.id == itemId))

/-- `removeFromCart itemId`: `DELETE FROM cart_items WHERE id = ?`;
always returns `{ success: true }`. -/
def removeFromCart (db : DB) (itemId : String) : DB × Bool :=
  ({ db with cartItems := db.cartItems.filter (fun it => !(it.id == itemId)) }, true)

/-- `clearCart cartId`: `DELETE FROM cart_items WHERE cart_id = ?`;
always returns `{ success: true }`. -/
def clearCart (db : DB) (cartId : String) : DB × Bool :=
  ({ db with cartItems := db.cartItems.filter (fun it => !(it.cartId == cartId)) }, true)

/-! ## `getCartWithItems` (`cart.ts`): the join query and view construction -/

/-- `ORDER BY c.created_at DESC` on carts. -/
def cartDescOrder (a b : Cart) : Prop :=
  b.createdAt ≤ a.createdAt

instance : DecidableRel cartDescOrder :=
  fun a b => Nat.decLe b.createdAt a.createdAt

instance : IsTotal Cart cartDescOrder :=
  ⟨fun a b => Nat.le_total b.createdAt a.createdAt⟩

instance : IsTrans Cart cartDescOrder :=
  ⟨fun _ _ _ h h' => Nat.le_trans h' h⟩

/-- `ORDER BY ci.created_at ASC` on cart items. -/
def itemAscOrder (a b : CartItem) : Prop :=
  a.createdAt ≤ b.createdAt

instance : DecidableRel itemAscOrder :=
  fun a b => Nat.decLe a.createdAt b.createdAt

/-- `ORDER BY position ASC, createdAt ASC` on product images. -/
def imageOrder (a b : ProductImage) : Prop :=
  a.position < b.position ∨ (a.position = b.position ∧ a.createdAt ≤ b.createdAt)

instance : DecidableRel imageOrder :=
  fun a b => by unfold imageOrder; infer_instance

/-- The correlated subquery producing `image_url`: first image of the product
by position then creation time. -/
def firstImageUrl (db : DB) (productId : String) : Option String :=
  (((db.images.filter (fun pi => pi.productId == productId)).insertionSort
      imageOrder).head?).map (fun pi => pi.url)

/-- One row of the `carts LEFT JOIN cart_items LEFT JOIN products` result:
the cart columns, the (possibly NULL) item columns, and the (possibly NULL)
product columns. -/
structure JoinRow where
  cart : Cart
  item? : Option CartItem
  product? : Option Product
  imageUrl? : Option String
deriving DecidableEq

/-- The join rows contributed by one cart: its items in `ci.created_at ASC`
order (each with the product row looked up by id), or a single all-NULL item
row when the cart has no items (LEFT JOIN). -/
def cartBlock (db : DB) (c : Cart) : List JoinRow :=
  match (db.cartItems.filter (fun it => it.cartId == c.id)).insertionSort itemAscOrder with
  | [] => [⟨c, none, none, none⟩]
  | it :: its => (it :: its).map (fun it' =>
      let p? := db.products.find? (fun p => p.id == it'.productId)
      ⟨c, some it', p?, p?.bind (fun p => firstImageUrl db p.id)⟩)

/-- The full result set of the join query for a session:
all carts with that `session_id`, most recently created first. -/
def cartRows (db : DB) (sessionId : String) : List JoinRow :=
  ((db.carts.filter (fun c => c.sessionId == sessionId)).insertionSort
      cartDescOrder).flatMap (cartBlock db)

/-- The nested `product` object of a returned cart item. -/
structure ProductView where
  id : String
  name : String
  description : String
  price : Rat
  sku : String
  imageUrl : Option String
deriving DecidableEq

/-- A returned cart item. `productId` is the selected `p.id` column (NULL when
the LEFT JOIN found no product), and `product` is the nested object (modelled
as `none` when all its columns are NULL). -/
structure CartItemView where
  id : String
  cartId : String
  productId : Option String
  quantity : Int
  createdAt : Nat
  updatedAt : Nat
  product : Option ProductView
deriving DecidableEq

/-- The returned cart with computed totals. -/
structure CartView where
  id : String
  sessionId : String
  createdAt : Nat
  updatedAt : Nat
  items : List CartItemView
  totalItems : Int
  totalPrice : Rat
deriving DecidableEq

/-- The `rows.filter((r) => r.item_id).map(...)` step for one row: kept only
when the item columns are non-NULL (item ids are UUIDs, hence truthy). -/
def rowItemView (r : JoinRow) : Option CartItemView :=
  r.item?.map (fun it =>
    { id := it.id
      cartId := r.cart.id
      productId := r.product?.map (fun p => p.id)
      quantity := it.quantity
      createdAt := it.createdAt
      updatedAt := it.updatedAt
      product := r.product?.map (fun p =>
        ⟨p.id, p.name, p.description, p.price, p.sku, r.imageUrl?⟩) })

/-- The price factor `it.product.price` used in the `totalPrice` reduce:
JavaScript multiplies `null` as `0` when the product columns are NULL. -/
def viewPrice : Option ProductView → Rat
  | some p => p.price
  | none => 0

/-- `getCartWithItems sessionId`: runs the join query; `null` when it returns
no rows; otherwise builds the cart from the first row and the items from all
rows having item columns, with `totalItems`/`totalPrice` computed by reduce. -/
def getCartWithItems (db : DB) (sessionId : String) : Option CartView :=
  match cartRows db sessionId with
  | [] => none
  | base :: rest =>
      let items := ((base :: rest).filterMap rowItemView)
      some
        { id := base.cart.id
          sessionId := base.cart.sessionId
          createdAt := base.cart.createdAt
          updatedAt := base.cart.updatedAt
          items := items
          totalItems := (items.map (fun iv => iv.quantity)).sum
          totalPrice := (items.map (fun iv => viewPrice iv.product * iv.quantity)).sum }

/-! ## Cart operations as a step relation, and the request validation schemas -/

/-- One cart-service mutation, with the generated values it consumes. -/
inductive CartOp where
  | createCart (sessionId freshId : String) (now : Nat)
  | addItem (cartId productId : String) (quantity : Int) (freshId : String) (now : Nat)
  | updateItem (itemId : String) (quantity : Int) (now : Nat)
  | removeItem (itemId : String)
  | clear (cartId : String)
deriving DecidableEq

/-- Apply one cart-service operation to the database state. -/
def applyCartOp (db : DB) : CartOp → DB
  | .createCart sessionId freshId now => createCart db sessionId freshId now
  | .addItem cartId productId quantity freshId now =>
      (addToCart db cartId productId quantity freshId now).1
  | .updateItem itemId quantity now => (updateCartItem db itemId quantity now).1
  | .removeItem itemId => (removeFromCart db itemId).1
  | .clear cartId => (clearCart db cartId).1

/-- The zod refinements of `addToCartSchema` / `updateCartItemSchema`:
the request quantity is an integer with `min(1)` and `max(100)` (and for add,
a nonempty product id). -/
def ValidCartOp : CartOp → Prop
  | .createCart sessionId _ _ => 1 ≤ sessionId.length
  | .addItem _ productId quantity _ _ =>
      1 ≤ productId.length ∧ 1 ≤ quantity ∧ quantity ≤ 100
  | .updateItem _ quantity _ => 1 ≤ quantity ∧ quantity ≤ 100
  | .removeItem _ => True
  | .clear _ => True

instance : DecidablePred ValidCartOp :=
  fun op => by cases op <;> (unfold ValidCartOp; infer_instance)

/-! ## HTTP façade routes used by the claims (`index.ts`) -/

/-- Response of `POST /api/cart/:cartId/items`. -/
inductive AddItemResponse where
  | invalidData
  | created (item : CartItem)
deriving DecidableEq

/-- Status code of an add-item response (400 `Dados inválidos` / 201). -/
def addItemStatus : AddItemResponse → Nat
  | .invalidData => 400
  | .created _ => 201

/-- Handler of `POST /api/cart/:cartId/items`: parses the body with
`addToCartSchema` and calls `addToCart`. No product lookup is performed. -/
def postCartItemHandler (db : DB) (cartId productId : String) (quantity : Int)
    (freshId : String) (now : Nat) : DB × AddItemResponse :=
  if 1 ≤ productId.length ∧ 1 ≤ quantity ∧ quantity ≤ 100 then
    let (db', item) := addToCart db cartId productId quantity freshId now
    (db', .created item)
  else (db, .invalidData)

/-- Handler of `DELETE /api/cart/:cartId`: calls `clearCart` and answers
`c.json(result, 200)`; the pair returned is (status, success marker). -/
def deleteCartHandler (db : DB) (cartId : String) : DB × Nat × Bool :=
  let (db', result) := clearCart db cartId
  (db', 200, result)

/-! ## Products router (`products.ts`) -/

/-- Request body of `PUT /api/products/:id`. -/
structure ProductBody where
  name : String
  description : String
  price : Rat
  sku : String
deriving DecidableEq

/-- The zod refinements of `updateProductSchema`: nonempty name, description
and SKU, positive price. -/
def validUpdateBody (b : ProductBody) : Prop :=
  1 ≤ b.name.length ∧ 1 ≤ b.description.length ∧ 0 < b.price ∧ 1 ≤ b.sku.length

instance : DecidablePred validUpdateBody :=
  fun b => by unfold validUpdateBody; infer_instance

/-- Response of `PUT /api/products/:id`. `ok` carries the post-update
`getProductById` result, which the source casts to `Product` and returns. -/
inductive UpdateResponse where
  | validationFailed
  | notFound
  | skuConflict
  | ok (p : Option Product)
deriving DecidableEq

/-- Status code of an update response (400 / 404 / 400 `SKU already exists`
/ 200). -/
def updateStatus : UpdateResponse → Nat
  | .validationFailed => 400
  | .notFound => 404
  | .skuConflict => 400
  | .ok _ => 200

/-- Handler of `PUT /api/products/:id`: validate, look up the product,
reject a duplicate SKU only when the new SKU differs from the current one,
then `UPDATE products SET name/description/price/sku WHERE id = ?` and
return the re-fetched row. -/
def updateProductHandler (db : DB) (id : String) (body : ProductBody) :
    DB × UpdateResponse :=
  if validUpdateBody body then
    match getProductById db id with
    | none => (db, .notFound)
    | some existingProduct =>
        if body.sku ≠ existingProduct.sku ∧ (getProductBySku db body.sku).isSome then
          (db, .skuConflict)
        else
          let db' := { db with products := db.products.map (fun p =>
              if p.id == id then
                { p with name := body.name, description := body.description,
                         price := body.price, sku := body.sku }
              else p) }
          (db', .ok (getProductById db' id))
  else (db, .validationFailed)

/-- One entry of `formData.getAll('images')`: either a `File` (with its
client-side name; the byte content never reaches the database) or a non-file
form value, which the upload loop skips (`if (!(f instanceof File)) continue`). -/
inductive FormEntry where
  | file (name : String)
  | field (value : String)
deriving DecidableEq

/-- Whether a form entry is a `File` instance. -/
def FormEntry.isFile : FormEntry → Bool
  | .file _ => true
  | .field _ => false

/-- `origName.replace(/[^a-zA-Z0-9_.-]/g, '_')`. -/
def sanitizeName (origName : String) : String :=
  origName.map (fun c =>
    if c.isAlpha || c.isDigit || c == '_' || c == '.' || c == '-' then c else '_')

/-- Response of the multipart branch of `POST /api/products/:id/images`. -/
inductive UploadResponse where
  | notFound
  | noFiles
  | created (images : List ProductImage)
deriving DecidableEq

/-- Status code of an upload response (404 / 400 `No files provided` / 201). -/
def uploadStatus : UploadResponse → Nat
  | .notFound => 404
  | .noFiles => 400
  | .created _ => 201

/-- Multipart branch of `POST /api/products/:id/images`: ensure the product
exists, reject when `formData.getAll('images')` is empty, then loop over the
entries skipping non-`File` values; each file is written to disk (not
modelled) and inserted as a `ProductImage` row with a generated id and a
generated unique name in its public URL (`genId`/`genName` index the loop). -/
def uploadImagesMultipart (db : DB) (id : String) (entries : List FormEntry)
    (genId genName : Nat → String) (createdAt : Nat) : DB × UploadResponse :=
  match getProductById db id with
  | none => (db, .notFound)
  | some _ =>
      if entries.length = 0 then (db, .noFiles)
      else
        let savedImages := entries.enum.filterMap (fun (i, e) =>
          match e with
          | .file origName =>
              some ({ id := genId i
                      productId := id
                      url := "/uploads/products/" ++ id ++ "/" ++ genName i
                        ++ "_" ++ sanitizeName origName
                      position := 0
                      createdAt := createdAt } : ProductImage)
          | .field _ => none)
        ({ db with images := db.images ++ savedImages }, .created savedImages)

/-! ## Derived observations used to state the claims -/

/-- The stored quantity for a (cart, product) pair, if a row exists. -/
def pairQuantity (db : DB) (cartId productId : String) : Option Int :=
  (findPairItem db.cartItems cartId productId).map (fun it => it.quantity)

/-- Run a sequence of add-to-cart calls against one (cart, product) pair;
each call supplies its quantity, fresh row id, and timestamp. -/
def runAdds (db : DB) (cartId productId : String) :
    List (Int × String × Nat) → DB
  | [] => db
  | (q, freshId, now) :: rest =>
      runAdds (addToCart db cartId productId q freshId now).1 cartId productId rest

/-- Number of cart-item rows for a (cart, product) pair. -/
def pairCount (items : List CartItem) (cartId productId : String) : Nat :=
  (items.filter (fun it => it.cartId == cartId && it.productId == productId)).length

/-- Invariant: at most one cart-item row per (cart, product) pair. -/
def AtMostOnePerPair (db : DB) : Prop :=
  ∀ cartId productId : String, pairCount db.cartItems cartId productId ≤ 1

/-- Invariant: every stored cart-item quantity is at least 1. -/
def QuantitiesPositive (db : DB) : Prop :=
  ∀ it ∈ db.cartItems, 1 ≤ it.quantity

/-- The product's current stored price for a (possibly NULL) product id
column: the price of the first `products` row with that id, `0` when the id
is NULL or no row matches (mirroring the JavaScript `null` arithmetic). -/
def currentPriceOfId (db : DB) : Option String → Rat
  | none => 0
  | some pid =>
      match getProductById db pid with
      | some p => p.price
      | none => 0

/-! ## Concrete states used by witnesses and counterexamples -/

/-- The empty database (fresh schema). -/
def dbEmpty : DB :=
  ⟨[], [], [], []⟩

/-- Spec scenario state: product of SKU `A1`, price already updated from 10
to 15; one cart for session `s` holding 2 units of it. -/
def dbScenario : DB :=
  ⟨[⟨"p1", "Widget", "A widget", 15, "A1", 0⟩], [],
   [⟨"c1", "s", 1, 1⟩],
   [⟨"i1", "c1", "p1", 2, 2, 2⟩]⟩

/-- Two carts for session `s`: `c1` created first (holding item `i1`), `c2`
created later and empty. -/
def dbTwoCarts : DB :=
  ⟨[], [],
   [⟨"c1", "s", 1, 1⟩, ⟨"c2", "s", 2, 2⟩],
   [⟨"i1", "c1", "p1", 3, 1, 1⟩]⟩

/-- A single product with SKU `A1`, and no other rows. -/
def dbOneProduct : DB :=
  ⟨[⟨"p1", "Widget", "A widget", 10, "A1", 0⟩], [], [], []⟩

/-- One cart with two items. -/
def dbTwoItems : DB :=
  ⟨[], [],
   [⟨"c1", "s", 1, 1⟩],
   [⟨"i1", "c1", "p1", 2, 1, 1⟩, ⟨"i2", "c1", "p2", 5, 2, 2⟩]⟩

/-! ## Helper lemmas -/

/-- A `find?` over an append skips a prefix on which the predicate fails. -/
theorem find?_append_of_none {α} {p : α → Bool} {l₁ l₂ : List α}
    (h : ∀ x ∈ l₁, p x = false) : (l₁ ++ l₂).find? p = l₂.find? p := by
  rw [List.find?_append]
  have hn : l₁.find? p = none :=
    List.find?_eq_none.mpr (fun x hx => by simp [h x hx])
  rw [hn, Option.none_or]

/-- A `WHERE key = k` row update commutes with a `find?` on the same
condition, when the update preserves the key. -/
theorem find?_map_update {α β} [BEq β] (key : α → β) (k : β) (f : α → α)
    (hf : ∀ a, key (f a) = key a) :
    ∀ (l : List α) (a : α), l.find? (fun x => key x == k) = some a →
      (l.map (fun x => if key x == k then f x else x)).find?
          (fun x => key x == k)
        = some (f a)
  | [], a, h => by simp at h
  | b :: l, a, h => by
      by_cases hb : (key b == k) = true
      · rw [@List.find?_cons_of_pos _ (fun x => key x == k) b l hb] at h
        injection h with h
        subst h
        simp only [List.map_cons, if_pos hb]
        exact @List.find?_cons_of_pos _ (fun x => key x == k) (f b) _
          (by show (key (f b) == k) = true; rw [hf b]; exact hb)
      · rw [@List.find?_cons_of_neg _ (fun x => key x == k) b l hb] at h
        simp only [List.map_cons, if_neg hb]
        rw [@List.find?_cons_of_neg _ (fun x => key x == k) b _ hb]
        exact find?_map_update key k f hf l a h

/-- In a list whose keys are duplicate-free, `find?` by key returns any
given member with that key. -/
theorem find?_of_mem_nodup {α β} [DecidableEq β] (key : α → β) :
    ∀ (l : List α), (l.map key).Nodup → ∀ a ∈ l,
      l.find? (fun x => key x == key a) = some a
  | [], _, a, ha => absurd ha (List.not_mem_nil a)
  | b :: l, hnd, a, ha => by
      by_cases hb : key b = key a
      · have hab : a = b := by
          rcases List.mem_cons.mp ha with h | h
          · exact h
          · exfalso
            have : key a ∈ l.map key := List.mem_map_of_mem key h
            rw [← hb] at this
            exact (List.nodup_cons.mp hnd).1 this
        subst hab
        exact List.find?_cons_of_pos _ (by simp)
      · have hne : a ≠ b := fun h => hb (by rw [h])
        have ha' : a ∈ l := by
          rcases List.mem_cons.mp ha with h | h
          · exact absurd h hne
          · exact h
        rw [List.find?_cons_of_neg _ (by simp [hb])]
        exact find?_of_mem_nodup key l (List.nodup_cons.mp hnd).2 a ha'

/-! ## Claims -/

/-- C9: for every cart identifier, including one with no cart row, the
clear-cart route answers 200 with `success = true` (there is no not-found
path), removes exactly the cart-item rows of that cart, and leaves every
other table — and every item of other carts — unchanged. -/
theorem clearCart_route_total (db : DB) (cartId : String) :
    (deleteCartHandler db cartId).2.1 = 200 ∧
    (deleteCartHandler db cartId).2.2 = true ∧
    (∀ it : CartItem, it ∈ (deleteCartHandler db cartId).1.cartItems ↔
        it ∈ db.cartItems ∧ it.cartId ≠ cartId) ∧
    (deleteCartHandler db cartId).1.cartItems
      = db.cartItems.filter (fun it => decide (it.cartId ≠ cartId)) ∧
    (deleteCartHandler db cartId).1.carts = db.carts ∧
    (deleteCartHandler db cartId).1.products = db.products ∧
    (deleteCartHandler db cartId).1.images = db.images := by
  refine ⟨rfl, rfl, ?_, ?_, rfl, rfl, rfl⟩
  · intro it
    simp [deleteCartHandler, clearCart, List.mem_filter]
  · exact List.filter_congr (fun x _ => by
      by_cases h : x.cartId = cartId <;> simp [h])

/-- C7: updating an existing product with a body whose SKU equals the
product's own current SKU never hits the duplicate-SKU conflict: whatever
the other (valid) fields are, the route answers 200 and the returned row
carries the new fields with the identifier and creation timestamp intact. -/
theorem updateProduct_sameSku_no_conflict (db : DB) (id : String)
    (body : ProductBody) (p : Product) (hv : validUpdateBody body)
    (hp : getProductById db id = some p) (hsku : body.sku = p.sku) :
    ∃ p', (updateProductHandler db id body).2 = .ok (some p') ∧
      updateStatus (updateProductHandler db id body).2 = 200 ∧
      p'.id = p.id ∧ p'.createdAt = p.createdAt ∧
      p'.name = body.name ∧ p'.description = body.description ∧
      p'.price = body.price ∧ p'.sku = body.sku := by
  have hnc : ¬(body.sku ≠ p.sku ∧ (getProductBySku db body.sku).isSome) :=
    fun h => h.1 hsku
  have hfind : getProductById { db with products := db.products.map (fun q =>
      if q.id == id then
        { q with name := body.name, description := body.description,
                 price := body.price, sku := body.sku }
      else q) } id
      = some { p with name := body.name, description := body.description,
                      price := body.price, sku := body.sku } :=
    find?_map_update (fun q : Product => q.id) id
      (fun q : Product =>
        { q with name := body.name, description := body.description,
                 price := body.price, sku := body.sku })
      (fun _ => rfl) db.products p hp
  refine ⟨{ p with name := body.name, description := body.description,
                   price := body.price, sku := body.sku },
    ?_, ?_, rfl, rfl, rfl, rfl, rfl, rfl⟩
  · simp only [updateProductHandler, if_pos hv, hp, if_neg hnc]
    rw [hfind]
  · simp only [updateProductHandler, if_pos hv, hp, if_neg hnc, updateStatus]

/-- C7 witness: updating the product of `dbOneProduct` keeping SKU `A1`. -/
theorem updateProduct_sameSku_no_conflict_witness :
    validUpdateBody ⟨"New name", "New description", 99, "A1"⟩ ∧
    getProductById dbOneProduct "p1" = some ⟨"p1", "Widget", "A widget", 10, "A1", 0⟩ ∧
    ∃ p', (updateProductHandler dbOneProduct "p1" ⟨"New name", "New description", 99, "A1"⟩).2
        = .ok (some p') ∧
      updateStatus (updateProductHandler dbOneProduct "p1"
        ⟨"New name", "New description", 99, "A1"⟩).2 = 200 ∧
      p'.id = "p1" ∧ p'.createdAt = 0 ∧
      p'.name = "New name" ∧ p'.description = "New description" ∧
      p'.price = 99 ∧ p'.sku = "A1" :=
  ⟨by decide, by decide,
   updateProduct_sameSku_no_conflict dbOneProduct "p1" _
     ⟨"p1", "Widget", "A widget", 10, "A1", 0⟩ (by decide) (by decide) rfl⟩

/-- C10: updating the quantity of an existing cart item (unique ids) changes
only that row's `quantity` and `updatedAt` — its identifier, cart identifier,
product identifier and creation timestamp survive — returns the updated row,
keeps every other cart-item row, the row count, and all other tables. -/
theorem updateCartItem_frame (db : DB) (itemId : String) (q : Int) (now : Nat)
    (it : CartItem) (hm : it ∈ db.cartItems) (hid : it.id = itemId)
    (hnd : (db.cartItems.map (fun x => x.id)).Nodup) :
    (updateCartItem db itemId q now).2
      = some { it with quantity := q, updatedAt := now } ∧
    { it with quantity := q, updatedAt := now }
      ∈ (updateCartItem db itemId q now).1.cartItems ∧
    (∀ other ∈ db.cartItems, other.id ≠ itemId →
      other ∈ (updateCartItem db itemId q now).1.cartItems) ∧
    (updateCartItem db itemId q now).1.cartItems.length = db.cartItems.length ∧
    (updateCartItem db itemId q now).1.carts = db.carts ∧
    (updateCartItem db itemId q now).1.products = db.products ∧
    (updateCartItem db itemId q now).1.images = db.images := by
  have hfd : db.cartItems.find? (fun x => x.id == itemId) = some it := by
    have h0 := find?_of_mem_nodup (fun x : CartItem => x.id) db.cartItems hnd it hm
    simpa [hid] using h0
  refine ⟨?_, ?_, ?_, ?_, rfl, rfl, rfl⟩
  · exact find?_map_update (fun x : CartItem => x.id) itemId
      (fun x => { x with quantity := q, updatedAt := now })
      (fun _ => rfl) db.cartItems it hfd
  · have : (fun x : CartItem =>
        if x.id == itemId then { x with quantity := q, updatedAt := now }
        else x) it = { it with quantity := q, updatedAt := now } := by
      simp [hid]
    have h2 := List.mem_map_of_mem (fun x : CartItem =>
        if x.id == itemId then { x with quantity := q, updatedAt := now }
        else x) hm
    rwa [this] at h2
  · intro other hmem hne
    have : (fun x : CartItem =>
        if x.id == itemId then { x with quantity := q, updatedAt := now }
        else x) other = other := by
      simp [hne]
    have h2 := List.mem_map_of_mem (fun x : CartItem =>
        if x.id == itemId then { x with quantity := q, updatedAt := now }
        else x) hmem
    rwa [this] at h2
  · exact List.length_map _ _

/-- C10 witness: updating item `i1` of `dbTwoItems` to quantity 7. -/
theorem updateCartItem_frame_witness :
    (⟨"i1", "c1", "p1", 2, 1, 1⟩ : CartItem) ∈ dbTwoItems.cartItems ∧
    (dbTwoItems.cartItems.map (fun x => x.id)).Nodup ∧
    ((updateCartItem dbTwoItems "i1" 7 9).2
        = some ⟨"i1", "c1", "p1", 7, 1, 9⟩ ∧
      (⟨"i1", "c1", "p1", 7, 1, 9⟩ : CartItem)
        ∈ (updateCartItem dbTwoItems "i1" 7 9).1.cartItems ∧
      (∀ other ∈ dbTwoItems.cartItems, other.id ≠ "i1" →
        other ∈ (updateCartItem dbTwoItems "i1" 7 9).1.cartItems) ∧
      (updateCartItem dbTwoItems "i1" 7 9).1.cartItems.length
        = dbTwoItems.cartItems.length ∧
      (updateCartItem dbTwoItems "i1" 7 9).1.carts = dbTwoItems.carts ∧
      (updateCartItem dbTwoItems "i1" 7 9).1.products = dbTwoItems.products ∧
      (updateCartItem dbTwoItems "i1" 7 9).1.images = dbTwoItems.images) :=
  ⟨by decide, by decide,
   updateCartItem_frame dbTwoItems "i1" 7 9 ⟨"i1", "c1", "p1", 2, 1, 1⟩
     (by decide) rfl (by decide)⟩

/-- C2 counterexample: on the empty database (so product `ghost` does not
exist) a valid add-item request is not rejected: the route answers 201 and
inserts a cart-item row referencing the nonexistent product, refuting the
claim that the façade checks product existence before calling the service. -/
theorem addItem_ghost_product_accepted :
    getProductById dbEmpty "ghost" = none ∧
    addItemStatus (postCartItemHandler dbEmpty "c1" "ghost" 2 "i1" 5).2 = 201 ∧
    (postCartItemHandler dbEmpty "c1" "ghost" 2 "i1" 5).1.cartItems
      = [⟨"i1", "c1", "ghost", 2, 5, 5⟩] := by
  decide

/-- C2 amended: the route performs no product-existence check — a request
that passes body validation is answered 201 and a cart-item row for the
requested product is stored (inserted or incremented) even when no product
with that identifier exists. -/
theorem addItem_route_no_product_check (db : DB) (cartId productId : String)
    (q : Int) (freshId : String) (now : Nat)
    (hp : 1 ≤ productId.length) (h1 : 1 ≤ q) (h2 : q ≤ 100)
    (hmiss : getProductById db productId = none) :
    addItemStatus (postCartItemHandler db cartId productId q freshId now).2 = 201 ∧
    ∃ it ∈ (postCartItemHandler db cartId productId q freshId now).1.cartItems,
      it.cartId = cartId ∧ it.productId = productId := by
  simp only [postCartItemHandler, if_pos (show _ ∧ _ ∧ _ from ⟨hp, h1, h2⟩)]
  cases hfind : findPairItem db.cartItems cartId productId with
  | none =>
      simp only [addToCart, hfind]
      exact ⟨rfl, ⟨freshId, cartId, productId, q, now, now⟩,
        List.mem_append_right _ (List.mem_singleton.mpr rfl), rfl, rfl⟩
  | some e =>
      have hpred := List.find?_some hfind
      have hmem := List.mem_of_find?_eq_some hfind
      have hecart : e.cartId = cartId := by
        simp only [Bool.and_eq_true, beq_iff_eq] at hpred
        exact hpred.1
      have heprod : e.productId = productId := by
        simp only [Bool.and_eq_true, beq_iff_eq] at hpred
        exact hpred.2
      simp only [addToCart, hfind]
      refine ⟨rfl, { e with quantity := e.quantity + q, updatedAt := now }, ?_, hecart, heprod⟩
      have : (fun x : CartItem =>
          if x.id == e.id then { x with quantity := x.quantity + q, updatedAt := now }
          else x) e = { e with quantity := e.quantity + q, updatedAt := now } := by
        simp
      have h2 := List.mem_map_of_mem (fun x : CartItem =>
          if x.id == e.id then { x with quantity := x.quantity + q, updatedAt := now }
          else x) hmem
      rwa [this] at h2

/-- C2 amended witness: the concrete `ghost` insertion satisfies the amended
statement's hypotheses and conclusion. -/
theorem addItem_route_no_product_check_witness :
    (1 ≤ "ghost".length ∧ (1 : Int) ≤ 2 ∧ (2 : Int) ≤ 100 ∧
      getProductById dbEmpty "ghost" = none) ∧
    addItemStatus (postCartItemHandler dbEmpty "c1" "ghost" 2 "i1" 5).2 = 201 ∧
    ∃ it ∈ (postCartItemHandler dbEmpty "c1" "ghost" 2 "i1" 5).1.cartItems,
      it.cartId = "c1" ∧ it.productId = "ghost" :=
  ⟨⟨by decide, by decide, by decide, by decide⟩,
   addItem_route_no_product_check dbEmpty "c1" "ghost" 2 "i1" 5
     (by decide) (by decide) (by decide) (by decide)⟩

/-- Auxiliary for C5/C3: the quantity-update map of `addToCart` and
`updateCartItem` never changes a row's cart or product identifiers, so the
pair-row count is unchanged. -/
theorem pairCount_map_preserving (l : List CartItem) (g : CartItem → CartItem)
    (hg : ∀ x, (g x).cartId = x.cartId ∧ (g x).productId = x.productId)
    (cid pid : String) : pairCount (l.map g) cid pid = pairCount l cid pid := by
  unfold pairCount
  rw [← List.countP_eq_length_filter, ← List.countP_eq_length_filter,
    List.countP_map]
  exact List.countP_congr (fun x _ => by
    simp only [Function.comp_apply, (hg x).1, (hg x).2])

/-- C5: every cart-service operation preserves the invariant that at most
one cart-item row exists per (cart, product) pair; in particular add-to-cart
on an already-present product updates in place and never inserts a second
row for the pair. -/
theorem cartOps_pair_unique (db : DB) (op : CartOp)
    (h : AtMostOnePerPair db) : AtMostOnePerPair (applyCartOp db op) := by
  intro cid pid
  cases op with
  | createCart sessionId freshId now =>
      exact h cid pid
  | addItem cartId productId q freshId now =>
      cases hfind : findPairItem db.cartItems cartId productId with
      | some e =>
          have : applyCartOp db (.addItem cartId productId q freshId now)
              = { db with cartItems := db.cartItems.map (fun x =>
                  if x.id == e.id then
                    { x with quantity := x.quantity + q, updatedAt := now }
                  else x) } := by
            simp [applyCartOp, addToCart, hfind]
          rw [this]
          rw [show ({ db with cartItems := db.cartItems.map (fun x =>
              if x.id == e.id then
                { x with quantity := x.quantity + q, updatedAt := now }
              else x) } : DB).cartItems = db.cartItems.map (fun x =>
              if x.id == e.id then
                { x with quantity := x.quantity + q, updatedAt := now }
              else x) from rfl]
          rw [pairCount_map_preserving db.cartItems _ (fun x => by
            by_cases hx : (x.id == e.id) = true <;> simp [hx]) cid pid]
          exact h cid pid
      | none =>
          have hstep : applyCartOp db (.addItem cartId productId q freshId now)
              = { db with cartItems := db.cartItems
                  ++ [⟨freshId, cartId, productId, q, now, now⟩] } := by
            simp [applyCartOp, addToCart, hfind]
          rw [hstep]
          show pairCount (db.cartItems ++ [⟨freshId, cartId, productId, q, now, now⟩]) cid pid ≤ 1
          unfold pairCount
          rw [List.filter_append, List.length_append]
          by_cases hcp : cartId = cid ∧ productId = pid


          · have hzero : (db.cartItems.filter (fun it =>
                it.cartId == cid && it.productId == pid)).length = 0 := by
              rw [List.length_eq_zero]
              rw [List.filter_eq_nil_iff]
              intro a ha
              have := List.find?_eq_none.mp hfind a ha
              rw [← hcp.1, ← hcp.2]
              simpa using this
            have hone : (([⟨freshId, cartId, productId, q, now, now⟩] :
                List CartItem).filter (fun it =>
                it.cartId == cid && it.productId == pid)).length ≤ 1 :=
              le_trans (List.length_filter_le _ _) (by simp)
            omega
          · have hnew : (([⟨freshId, cartId, productId, q, now, now⟩] :
                List CartItem).filter (fun it =>
                it.cartId == cid && it.productId == pid)).length = 0 := by
              rw [List.length_eq_zero, List.filter_eq_nil_iff]
              intro a ha
              rw [List.mem_singleton] at ha
              subst ha
              simp only [Bool.and_eq_true, beq_iff_eq, not_and]
              intro h1 h2
              exact hcp ⟨h1, h2⟩
            rw [hnew]
            have := h cid pid
            unfold pairCount at this
            omega
  | updateItem itemId q now =>
      show pairCount (db.cartItems.map (fun x =>
          if x.id == itemId then { x with quantity := q, updatedAt := now }
          else x)) cid pid ≤ 1
      rw [pairCount_map_preserving db.cartItems _ (fun x => by
        by_cases hx : (x.id == itemId) = true <;> simp [hx]) cid pid]
      exact h cid pid
  | removeItem itemId =>
      show pairCount (db.cartItems.filter (fun x => !(x.id == itemId))) cid pid ≤ 1
      calc pairCount (db.cartItems.filter (fun x => !(x.id == itemId))) cid pid
          ≤ pairCount db.cartItems cid pid := by
            unfold pairCount
            rw [← List.countP_eq_length_filter, ← List.countP_eq_length_filter]
            exact List.Sublist.countP_le _ (List.filter_sublist _)
        _ ≤ 1 := h cid pid
  | clear cartId =>
      show pairCount (db.cartItems.filter (fun x => !(x.cartId == cartId))) cid pid ≤ 1
      calc pairCount (db.cartItems.filter (fun x => !(x.cartId == cartId))) cid pid
          ≤ pairCount db.cartItems cid pid := by
            unfold pairCount
            rw [← List.countP_eq_length_filter, ← List.countP_eq_length_filter]
            exact List.Sublist.countP_le _ (List.filter_sublist _)
        _ ≤ 1 := h cid pid

/-- C5 witness: the invariant holds of the empty store and is preserved by a
concrete add-to-cart. -/
theorem cartOps_pair_unique_witness :
    AtMostOnePerPair dbEmpty ∧
    AtMostOnePerPair (applyCartOp dbEmpty (.addItem "c" "p" 2 "i1" 0)) :=
  have h0 : AtMostOnePerPair dbEmpty := fun cid pid => by
    simp [pairCount, dbEmpty]
  ⟨h0, cartOps_pair_unique dbEmpty (.addItem "c" "p" 2 "i1" 0) h0⟩

/-- C3 counterexample: two add-to-cart requests for the same pair, each with
the schema-valid quantity 60, drive the stored quantity to 120, above the
claimed upper bound of 100. -/
theorem addToCart_exceeds_100 :
    ValidCartOp (.addItem "c" "p" 60 "i1" 0) ∧
    ValidCartOp (.addItem "c" "p" 60 "i2" 1) ∧
    pairQuantity
      (applyCartOp (applyCartOp dbEmpty (.addItem "c" "p" 60 "i1" 0))
        (.addItem "c" "p" 60 "i2" 1)) "c" "p" = some 120 ∧
    ¬((120 : Int) ≤ 100) := by
  refine ⟨?_, ?_, by decide, by decide⟩ <;> exact ⟨by decide, by decide, by decide⟩

/-- C3 amended: under schema-validated requests every stored cart-item
quantity stays an integer of at least 1 (each new row starts in 1..100 and
updates write a value in 1..100), but increments accumulate without an upper
cap, so the stored value can exceed 100. -/
theorem cartOps_quantity_positive (db : DB) (op : CartOp)
    (hv : ValidCartOp op) (h : QuantitiesPositive db) :
    QuantitiesPositive (applyCartOp db op) := by
  cases op with
  | createCart sessionId freshId now =>
      exact h
  | addItem cartId productId q freshId now =>
      obtain ⟨-, hq1, -⟩ := hv
      intro it hit
      cases hfind : findPairItem db.cartItems cartId productId with
      | some e =>
          rw [show applyCartOp db (.addItem cartId productId q freshId now)
              = { db with cartItems := db.cartItems.map (fun x =>
                  if x.id == e.id then
                    { x with quantity := x.quantity + q, updatedAt := now }
                  else x) } from by simp [applyCartOp, addToCart, hfind]] at hit
          obtain ⟨a, ha, rfl⟩ := List.mem_map.mp hit
          by_cases hx : (a.id == e.id) = true



          · simp only [if_pos hx]
            have := h a ha
            omega
          · simp only [if_neg hx]
            exact h a ha
      | none =>
          rw [show applyCartOp db (.addItem cartId productId q freshId now)
              = { db with cartItems := db.cartItems
                  ++ [⟨freshId, cartId, productId, q, now, now⟩] }
              from by simp [applyCartOp, addToCart, hfind]] at hit
          rcases List.mem_append.mp hit with hmem | hmem
          · exact h it hmem
          · rw [List.mem_singleton] at hmem
            subst hmem
            exact hq1
  | updateItem itemId q now =>
      obtain ⟨hq1, -⟩ := hv
      intro it hit
      obtain ⟨a, ha, rfl⟩ := List.mem_map.mp hit
      by_cases hx : (a.id == itemId) = true
      · simp only [if_pos hx]
        exact hq1
      · simp only [if_neg hx]
        exact h a ha
  | removeItem itemId =>
      intro it hit
      exact h it (List.mem_of_mem_filter hit)
  | clear cartId =>
      intro it hit
      exact h it (List.mem_of_mem_filter hit)

/-- C3 amended witness: a valid add on the empty store keeps all stored
quantities at least 1. -/
theorem cartOps_quantity_positive_witness :
    ValidCartOp (.addItem "c" "p" 2 "i1" 0) ∧
    QuantitiesPositive dbEmpty ∧
    QuantitiesPositive (applyCartOp dbEmpty (.addItem "c" "p" 2 "i1" 0)) :=
  have hv : ValidCartOp (.addItem "c" "p" 2 "i1" 0) :=
    ⟨by decide, by decide, by decide⟩
  have h0 : QuantitiesPositive dbEmpty := fun it hit => by
    simp [dbEmpty] at hit
  ⟨hv, h0, cartOps_quantity_positive dbEmpty (.addItem "c" "p" 2 "i1" 0) hv h0⟩

/-- Auxiliary for C1: once the (cart, product) pair is held by a single row
placed after all other rows — none of which matches the pair or reuses its
row id — every further add for the pair increments that row in place, and
the final quantity is the row's current quantity plus the sum of the
remaining call quantities. -/
theorem runAdds_single_row (cartId productId : String) :
    ∀ (rest : List (Int × String × Nat)) (db : DB) (pre : List CartItem)
      (item : CartItem),
      db.cartItems = pre ++ [item] →
      item.cartId = cartId → item.productId = productId →
      (∀ x ∈ pre, (x.cartId == cartId && x.productId == productId) = false) →
      (∀ x ∈ pre, x.id ≠ item.id) →
      ∃ item', (runAdds db cartId productId rest).cartItems = pre ++ [item'] ∧
        item'.cartId = cartId ∧ item'.productId = productId ∧
        item'.id = item.id ∧
        item'.quantity = item.quantity + (rest.map (fun c => c.1)).sum
  | [], db, pre, item, hdb, hc, hp, hpre, hfresh =>
      ⟨item, by simpa [runAdds] using hdb, hc, hp, rfl, by simp⟩
  | (q, freshId, now) :: rest, db, pre, item, hdb, hc, hp, hpre, hfresh => by
      have hfind : findPairItem db.cartItems cartId productId = some item := by
        rw [hdb]
        unfold findPairItem
        rw [find?_append_of_none hpre]
        exact List.find?_cons_of_pos _ (by simp [hc, hp])
      have hmap : db.cartItems.map (fun x =>
          if x.id == item.id then
            { x with quantity := x.quantity + q, updatedAt := now }
          else x)
          = pre ++ [{ item with quantity := item.quantity + q, updatedAt := now }] := by
        rw [hdb, List.map_append]
        congr 1
        · have hpre' : ∀ x ∈ pre, (fun x : CartItem =>
              if x.id == item.id then
                { x with quantity := x.quantity + q, updatedAt := now }
              else x) x = id x := fun x hx => by
            simp [(by simpa using hfresh x hx : ¬(x.id = item.id))]
          rw [List.map_congr_left hpre', List.map_id]
        · simp
      have hstep : (addToCart db cartId productId q freshId now).1
          = { db with cartItems :=
              pre ++ [{ item with quantity := item.quantity + q, updatedAt := now }] } := by
        simp only [addToCart, hfind]
        rw [show (db.cartItems.map (fun x =>
            if x.id == item.id then
              { x with quantity := x.quantity + q, updatedAt := now }
            else x)) = _ from hmap]
      obtain ⟨item', h1, h2, h3, h4, h5⟩ :=
        runAdds_single_row cartId productId rest
          (addToCart db cartId productId q freshId now).1 pre
          { item with quantity := item.quantity + q, updatedAt := now }
          (by rw [hstep]) hc hp hpre (fun x hx => hfresh x hx)
      refine ⟨item', ?_, h2, h3, h4, ?_⟩
      · show (runAdds db cartId productId ((q, freshId, now) :: rest)).cartItems
          = pre ++ [item']
        unfold runAdds
        exact h1
      · rw [h5]
        simp only [List.map_cons, List.sum_cons]
        ring

/-- C1: starting from a state with no row for the (cart, product) pair and a
first fresh id not already used as a row id, a sequence of add-to-cart calls
with quantities `q1 :: qs` leaves the pair's stored quantity at exactly
`q1 + sum qs`: the first call inserts the row with `q1`, each later call
increments it. -/
theorem addToCart_accumulates (db : DB) (cartId productId : String)
    (q1 : Int) (fid1 : String) (now1 : Nat) (rest : List (Int × String × Nat))
    (hno : ∀ x ∈ db.cartItems,
      (x.cartId == cartId && x.productId == productId) = false)
    (hfresh : ∀ x ∈ db.cartItems, x.id ≠ fid1) :
    pairQuantity (runAdds db cartId productId ((q1, fid1, now1) :: rest))
        cartId productId
      = some (q1 + (rest.map (fun c => c.1)).sum) := by
  have hfind : findPairItem db.cartItems cartId productId = none :=
    List.find?_eq_none.mpr (fun x hx => by simp [hno x hx])
  have hstep : (addToCart db cartId productId q1 fid1 now1).1
      = { db with cartItems := db.cartItems
          ++ [⟨fid1, cartId, productId, q1, now1, now1⟩] } := by
    simp [addToCart, hfind]
  obtain ⟨item', h1, h2, h3, h4, h5⟩ :=
    runAdds_single_row cartId productId rest
      (addToCart db cartId productId q1 fid1 now1).1 db.cartItems
      ⟨fid1, cartId, productId, q1, now1, now1⟩
      (by rw [hstep]) rfl rfl hno (fun x hx => hfresh x hx)
  show pairQuantity (runAdds (addToCart db cartId productId q1 fid1 now1).1
      cartId productId rest) cartId productId = _
  unfold pairQuantity findPairItem
  rw [h1, find?_append_of_none hno,
    List.find?_cons_of_pos _ (by simp [h2, h3])]
  simpa using h5

/-- C1 witness: adding 2 then 3 units of product `p` to cart `c` on the
empty store yields a stored quantity of 5. -/
theorem addToCart_accumulates_witness :
    (∀ x ∈ dbEmpty.cartItems,
      (x.cartId == "c" && x.productId == "p") = false) ∧
    (∀ x ∈ dbEmpty.cartItems, x.id ≠ "i1") ∧
    pairQuantity (runAdds dbEmpty "c" "p" [(2, "i1", 0), (3, "i2", 1)]) "c" "p"
      = some 5 :=
  have h1 : ∀ x ∈ dbEmpty.cartItems,
      (x.cartId == "c" && x.productId == "p") = false := fun x hx => by
    simp [dbEmpty] at hx
  have h2 : ∀ x ∈ dbEmpty.cartItems, x.id ≠ "i1" := fun x hx => by
    simp [dbEmpty] at hx
  ⟨h1, h2, by
    have := addToCart_accumulates dbEmpty "c" "p" 2 "i1" 0 [(3, "i2", 1)] h1 h2
    simpa using this⟩

/-- C8 counterexample: a multipart request whose single `images` entry is a
non-file form value has zero usable files, yet it passes the emptiness check
(`files.length === 0`), the loop skips the entry, and the route answers 201
with an empty list — not the 400 `no files provided` error — inserting no
rows. -/
theorem uploadImages_zero_usable_files_succeeds :
    (∀ e ∈ [FormEntry.field "x"], e.isFile = false) ∧
    uploadImagesMultipart dbOneProduct "p1" [FormEntry.field "x"]
        (fun _ => "gid") (fun _ => "gname") 0
      = (dbOneProduct, .created []) ∧
    uploadStatus (uploadImagesMultipart dbOneProduct "p1" [FormEntry.field "x"]
        (fun _ => "gid") (fun _ => "gname") 0).2 = 201 := by
  refine ⟨?_, by decide, by decide⟩
  intro e he
  rw [List.mem_singleton] at he
  subst he
  rfl

/-- C8 amended: the `no files provided` rejection fires exactly when the
multipart field has zero entries (then nothing is inserted); a request whose
entries exist but include no usable (File) entry is instead answered 201
with an empty created list, also inserting no rows. -/
theorem uploadImages_empty_vs_unusable (db : DB) (id : String)
    (entries : List FormEntry) (genId genName : Nat → String) (t : Nat)
    (p : Product) (hp : getProductById db id = some p) :
    (entries = [] →
      uploadImagesMultipart db id entries genId genName t = (db, .noFiles)) ∧
    (entries ≠ [] → (∀ e ∈ entries, e.isFile = false) →
      uploadImagesMultipart db id entries genId genName t
        = (db, .created [])) := by
  constructor
  · intro he
    subst he
    simp [uploadImagesMultipart, hp]
  · intro hne hall
    have hsaved : entries.enum.filterMap (fun (i, e) =>
        match e with
        | FormEntry.file origName =>
            some ({ id := genId i
                    productId := id
                    url := "/uploads/products/" ++ id ++ "/" ++ genName i
                      ++ "_" ++ sanitizeName origName
                    position := 0
                    createdAt := t } : ProductImage)
        | FormEntry.field _ => none) = [] := by
      rw [List.filterMap_eq_nil_iff]
      rintro ⟨i, e⟩ hmem
      have hx := (List.mem_enum hmem).2
      have he : e ∈ entries := hx ▸ List.getElem_mem _
      cases hcase : e with
      | file nm =>
          rw [hcase] at he
          have := hall _ he
          simp [FormEntry.isFile] at this
      | field v => rfl
    have hlen : ¬(entries.length = 0) := fun hz =>
      hne (List.length_eq_zero.mp hz)
    simp only [uploadImagesMultipart, hp, if_neg hlen, hsaved,
      List.append_nil]

/-- C8 amended witness: product `p1` exists; the zero-entry request is
rejected with `no files provided`, and the one-non-file-entry request is
answered with an empty created list. -/
theorem uploadImages_empty_vs_unusable_witness :
    getProductById dbOneProduct "p1"
      = some ⟨"p1", "Widget", "A widget", 10, "A1", 0⟩ ∧
    (([] : List FormEntry) = [] →
      uploadImagesMultipart dbOneProduct "p1" [] (fun _ => "gid")
        (fun _ => "gname") 0 = (dbOneProduct, .noFiles)) ∧
    (([] : List FormEntry) ≠ [] → (∀ e ∈ ([] : List FormEntry), e.isFile = false) →
      uploadImagesMultipart dbOneProduct "p1" [] (fun _ => "gid")
        (fun _ => "gname") 0 = (dbOneProduct, .created [])) :=
  ⟨by decide,
   uploadImages_empty_vs_unusable dbOneProduct "p1" [] (fun _ => "gid")
     (fun _ => "gname") 0 ⟨"p1", "Widget", "A widget", 10, "A1", 0⟩ (by decide)⟩

/-- Mapping pointwise-equal functions yields equal sums. -/
theorem sum_map_congr {α M} [AddCommMonoid M] (l : List α) (f g : α → M)
    (h : ∀ a ∈ l, f a = g a) : (l.map f).sum = (l.map g).sum := by
  rw [List.map_congr_left h]

/-- A cart's join block is never empty: a cart without items still yields
one row (LEFT JOIN). -/
theorem cartBlock_ne_nil (db : DB) (c : Cart) : cartBlock db c ≠ [] := by
  unfold cartBlock
  cases hs : (db.cartItems.filter (fun it => it.cartId == c.id)).insertionSort
      itemAscOrder with
  | nil => simp
  | cons it its => simp

/-- Every row of a cart's join block carries that cart's columns. -/
theorem mem_cartBlock_cart {db : DB} {c : Cart} {r : JoinRow}
    (h : r ∈ cartBlock db c) : r.cart = c := by
  unfold cartBlock at h
  cases hs : (db.cartItems.filter (fun it => it.cartId == c.id)).insertionSort
      itemAscOrder with
  | nil =>
      rw [hs] at h
      rw [List.mem_singleton] at h
      subst h
      rfl
  | cons it its =>
      rw [hs] at h
      obtain ⟨it', _, rfl⟩ := List.mem_map.mp h
      rfl

/-- A join-block row with item columns comes from a stored item of that
cart, and its product columns are the id lookup for that item's product. -/
theorem mem_cartBlock_item {db : DB} {c : Cart} {r : JoinRow} {it : CartItem}
    (h : r ∈ cartBlock db c) (hit : r.item? = some it) :
    it ∈ db.cartItems ∧ it.cartId = c.id ∧
    r.product? = db.products.find? (fun p => p.id == it.productId) := by
  unfold cartBlock at h
  cases hs : (db.cartItems.filter (fun x => x.cartId == c.id)).insertionSort
      itemAscOrder with
  | nil =>
      rw [hs] at h
      rw [List.mem_singleton] at h
      subst h
      simp at hit
  | cons it0 its =>
      rw [hs] at h
      obtain ⟨it', hmem', rfl⟩ := List.mem_map.mp h
      simp only at hit
      have hit' : it' = it := Option.some.inj hit
      subst hit'
      have hfil : it' ∈ db.cartItems.filter (fun x => x.cartId == c.id) := by
        have : it' ∈ (db.cartItems.filter (fun x => x.cartId == c.id)).insertionSort
            itemAscOrder := by
          rw [hs]
          exact hmem'
        exact (List.Perm.mem_iff (List.perm_insertionSort _ _)).mp this
      obtain ⟨hm, hcid⟩ := List.mem_filter.mp hfil
      exact ⟨hm, by simpa using hcid, rfl⟩

/-- Every stored item of a cart appears (with item columns) in the cart's
join block. -/
theorem cartBlock_complete {db : DB} {c : Cart} {it : CartItem}
    (hmem : it ∈ db.cartItems) (hcid : it.cartId = c.id) :
    ∃ r ∈ cartBlock db c, r.item? = some it := by
  have hs' : it ∈ (db.cartItems.filter (fun x => x.cartId == c.id)).insertionSort
      itemAscOrder :=
    (List.Perm.mem_iff (List.perm_insertionSort _ _)).mpr
      (List.mem_filter.mpr ⟨hmem, by simp [hcid]⟩)
  unfold cartBlock
  cases hs : (db.cartItems.filter (fun x => x.cartId == c.id)).insertionSort
      itemAscOrder with
  | nil =>
      rw [hs] at hs'
      exact absurd hs' (List.not_mem_nil it)
  | cons it0 its =>
      rw [hs] at hs'
      exact ⟨_, List.mem_map_of_mem _ hs', rfl⟩

/-- Every row of the join result belongs to the block of some cart of the
session. -/
theorem mem_cartRows {db : DB} {s : String} {r : JoinRow}
    (h : r ∈ cartRows db s) :
    ∃ c ∈ db.carts, c.sessionId = s ∧ r ∈ cartBlock db c := by
  unfold cartRows at h
  obtain ⟨c, hc, hr⟩ := List.mem_flatMap.mp h
  have hc' : c ∈ db.carts.filter (fun x => x.sessionId == s) :=
    (List.Perm.mem_iff (List.perm_insertionSort _ _)).mp hc
  obtain ⟨hcm, hcs⟩ := List.mem_filter.mp hc'
  exact ⟨c, hcm, by simpa using hcs, hr⟩

/-- Conversely, every block row of a session cart is in the join result. -/
theorem cartRows_complete {db : DB} {s : String} {c : Cart} {r : JoinRow}
    (hc : c ∈ db.carts) (hs : c.sessionId = s) (hr : r ∈ cartBlock db c) :
    r ∈ cartRows db s := by
  unfold cartRows
  refine List.mem_flatMap.mpr ⟨c, ?_, hr⟩
  exact (List.Perm.mem_iff (List.perm_insertionSort _ _)).mpr
    (List.mem_filter.mpr ⟨hc, by simp [hs]⟩)

/-- The first join row belongs to a session cart whose creation timestamp is
maximal among the session's carts (`ORDER BY c.created_at DESC`). -/
theorem cartRows_head_latest {db : DB} {s : String} {base : JoinRow}
    {rest : List JoinRow} (h : cartRows db s = base :: rest) :
    base.cart ∈ db.carts ∧ base.cart.sessionId = s ∧
    ∀ c' ∈ db.carts, c'.sessionId = s → c'.createdAt ≤ base.cart.createdAt := by
  unfold cartRows at h
  cases hs0 : (db.carts.filter (fun x => x.sessionId == s)).insertionSort
      cartDescOrder with
  | nil =>
      rw [hs0] at h
      simp at h
  | cons c cs =>
      rw [hs0] at h
      have hbase : base ∈ cartBlock db c := by
        rw [List.flatMap_cons] at h
        cases hb : cartBlock db c with
        | nil => exact absurd hb (cartBlock_ne_nil db c)
        | cons b bs =>
            rw [hb] at h
            rw [List.cons_append] at h
            injection h with h1 _
            rw [← h1]
            exact List.mem_cons_self b bs
      have hcart : base.cart = c := mem_cartBlock_cart hbase
      have hcfil : c ∈ db.carts.filter (fun x => x.sessionId == s) := by
        have : c ∈ (db.carts.filter (fun x => x.sessionId == s)).insertionSort
            cartDescOrder := by
          rw [hs0]
          exact List.mem_cons_self c cs
        exact (List.Perm.mem_iff (List.perm_insertionSort _ _)).mp this
      obtain ⟨hcm, hcs⟩ := List.mem_filter.mp hcfil
      have hsorted := List.sorted_insertionSort cartDescOrder
        (db.carts.filter (fun x => x.sessionId == s))
      rw [hs0] at hsorted
      refine ⟨hcart ▸ hcm, hcart ▸ (by simpa using hcs), ?_⟩
      intro c' hc' hc's
      have hc'fil : c' ∈ db.carts.filter (fun x => x.sessionId == s) :=
        List.mem_filter.mpr ⟨hc', by simp [hc's]⟩
      have hc'sorted : c' ∈ c :: cs := by
        rw [← hs0]
        exact (List.Perm.mem_iff (List.perm_insertionSort _ _)).mpr hc'fil
      rw [hcart]
      rcases List.mem_cons.mp hc'sorted with rfl | hmem
      · exact le_refl _
      · exact List.rel_of_sorted_cons hsorted c' hmem

/-- C4: whenever the read-with-items operation returns a cart, `totalItems`
is the sum of the returned item quantities and `totalPrice` is the sum over
the returned items of quantity times the product's price as currently stored
in the `products` table — the price is looked up at read time, so the totals
reflect price updates made after the items were added. -/
theorem getCart_totals_current_price (db : DB) (s : String) (cv : CartView)
    (h : getCartWithItems db s = some cv) :
    cv.totalItems = (cv.items.map (fun iv => iv.quantity)).sum ∧
    cv.totalPrice = (cv.items.map (fun iv =>
      currentPriceOfId db iv.productId * iv.quantity)).sum := by
  cases hrows : cartRows db s with
  | nil =>
      simp only [getCartWithItems, hrows] at h
      exact Option.noConfusion h
  | cons base rest =>
      simp only [getCartWithItems, hrows] at h
      injection h with h
      subst h
      refine ⟨rfl, sum_map_congr _ _ _ ?_⟩
      intro iv hiv
      obtain ⟨r, hr, hconv⟩ := List.mem_filterMap.mp hiv
      have hrmem : r ∈ cartRows db s := by
        rw [hrows]
        exact hr
      obtain ⟨c, hcmem, hcs, hblock⟩ := mem_cartRows hrmem
      unfold rowItemView at hconv
      cases hitq : r.item? with
      | none =>
          rw [hitq] at hconv
          simp at hconv
      | some it =>
          rw [hitq] at hconv
          simp only [Option.map_some'] at hconv
          obtain ⟨hmem, hcid, hprod⟩ := mem_cartBlock_item hblock hitq
          have hiv' := (Option.some.inj hconv).symm
          subst hiv'
          cases hp : r.product? with
          | none =>
              simp only [hp, Option.map_none', viewPrice, currentPriceOfId]
          | some p =>
              have hfindp : db.products.find? (fun x => x.id == it.productId)
                  = some p := hprod.symm.trans hp
              have hpid : p.id = it.productId := by
                simpa using List.find?_some hfindp
              simp only [hp, Option.map_some', viewPrice, currentPriceOfId,
                getProductById]
              rw [hpid, hfindp]

/-- The cart view computed by the spec scenario: price updated to 15 after
2 units were added, so the totals are 2 and 30. -/
def scenarioView : CartView :=
  ⟨"c1", "s", 1, 1,
   [⟨"i1", "c1", some "p1", 2, 2, 2,
     some ⟨"p1", "Widget", "A widget", 15, "A1", none⟩⟩],
   2, 30⟩

/-- C4 witness: the spec's concrete scenario (price 10 at add time, later
updated to 15, quantity 2) satisfies the theorem: totals 2 and 30 = 2·15. -/
theorem getCart_totals_current_price_witness :
    getCartWithItems dbScenario "s" = some scenarioView ∧
    (scenarioView.totalItems
        = (scenarioView.items.map (fun iv => iv.quantity)).sum ∧
      scenarioView.totalPrice = (scenarioView.items.map (fun iv =>
        currentPriceOfId dbScenario iv.productId * iv.quantity)).sum) :=
  ⟨by with_unfolding_all decide,
   getCart_totals_current_price dbScenario "s" scenarioView
     (by with_unfolding_all decide)⟩

/-- C6 counterexample: for session `s` of `dbTwoCarts`, cart `c2`
(creation time 2) is more recent than `c1` (creation time 1); the read
returns `c2` as the cart, yet its `items` list contains the item stored in
the older cart `c1` — returned items are not restricted to the most recent
cart. -/
theorem getCart_returns_stale_cart_items :
    (⟨"c1", "s", 1, 1⟩ : Cart) ∈ dbTwoCarts.carts ∧
    (⟨"c2", "s", 2, 2⟩ : Cart) ∈ dbTwoCarts.carts ∧
    (getCartWithItems dbTwoCarts "s").map
        (fun cv => (cv.id, cv.items.map (fun iv => iv.cartId)))
      = some ("c2", ["c1"]) := by
  with_unfolding_all decide

/-- C6 amended: the read-with-items operation returns the header of the
session's most recently created cart, but its `items` are those of all of
the session's carts: every returned item is a stored item of some session
cart (tagged with that cart's id), and every stored item of every session
cart — not only the most recent one — appears among the returned items. -/
theorem getCart_latest_header_all_session_items (db : DB) (s : String)
    (cv : CartView) (h : getCartWithItems db s = some cv) :
    (∃ c ∈ db.carts, c.sessionId = s ∧ cv.id = c.id ∧
      ∀ c' ∈ db.carts, c'.sessionId = s → c'.createdAt ≤ c.createdAt) ∧
    (∀ iv ∈ cv.items, ∃ c ∈ db.carts, ∃ it ∈ db.cartItems,
      c.sessionId = s ∧ it.cartId = c.id ∧ iv.id = it.id ∧ iv.cartId = c.id ∧
      iv.quantity = it.quantity) ∧
    (∀ c ∈ db.carts, c.sessionId = s → ∀ it ∈ db.cartItems, it.cartId = c.id →
      ∃ iv ∈ cv.items, iv.id = it.id ∧ iv.cartId = c.id) := by
  cases hrows : cartRows db s with
  | nil =>
      simp only [getCartWithItems, hrows] at h
      exact Option.noConfusion h
  | cons base rest =>
      simp only [getCartWithItems, hrows] at h
      injection h with h
      subst h
      refine ⟨?_, ?_, ?_⟩
      · obtain ⟨hc1, hc2, hc3⟩ := cartRows_head_latest hrows
        exact ⟨base.cart, hc1, hc2, rfl, hc3⟩
      · intro iv hiv
        obtain ⟨r, hr, hconv⟩ := List.mem_filterMap.mp hiv
        have hrmem : r ∈ cartRows db s := by
          rw [hrows]
          exact hr
        obtain ⟨c, hcmem, hcs, hblock⟩ := mem_cartRows hrmem
        unfold rowItemView at hconv
        cases hitq : r.item? with
        | none =>
            rw [hitq] at hconv
            simp at hconv
        | some it =>
            rw [hitq] at hconv
            simp only [Option.map_some'] at hconv
            obtain ⟨hmem, hcid, -⟩ := mem_cartBlock_item hblock hitq
            have hcart : r.cart = c := mem_cartBlock_cart hblock
            have hiv' := (Option.some.inj hconv).symm
            subst hiv'
            exact ⟨c, hcmem, it, hmem, hcs, hcid, rfl, by rw [hcart], rfl⟩
      · intro c hcmem hcs it hitmem hitcid
        obtain ⟨r, hrblock, hritem⟩ := cartBlock_complete hitmem hitcid
        have hrin : r ∈ cartRows db s := cartRows_complete hcmem hcs hrblock
        have hcart : r.cart = c := mem_cartBlock_cart hrblock
        rw [hrows] at hrin
        refine ⟨{ id := it.id, cartId := r.cart.id,
                  productId := r.product?.map (fun p => p.id),
                  quantity := it.quantity, createdAt := it.createdAt,
                  updatedAt := it.updatedAt,
                  product := r.product?.map (fun p =>
                    ⟨p.id, p.name, p.description, p.price, p.sku, r.imageUrl?⟩) },
          ?_, rfl, by rw [hcart]⟩
        refine List.mem_filterMap.mpr ⟨r, hrin, ?_⟩
        unfold rowItemView
        rw [hritem]
        rfl

/-- The cart view computed for `dbTwoCarts`: header of the newest cart `c2`,
items of the older cart `c1`. -/
def twoCartsView : CartView :=
  ⟨"c2", "s", 2, 2, [⟨"i1", "c1", none, 3, 1, 1, none⟩], 3, 0⟩

/-- C6 amended witness: the two-cart session state satisfies the amended
statement with the concretely computed view. -/
theorem getCart_latest_header_all_session_items_witness :
    getCartWithItems dbTwoCarts "s" = some twoCartsView ∧
    ((∃ c ∈ dbTwoCarts.carts, c.sessionId = "s" ∧ twoCartsView.id = c.id ∧
      ∀ c' ∈ dbTwoCarts.carts, c'.sessionId = "s" →
        c'.createdAt ≤ c.createdAt) ∧
    (∀ iv ∈ twoCartsView.items, ∃ c ∈ dbTwoCarts.carts,
      ∃ it ∈ dbTwoCarts.cartItems,
      c.sessionId = "s" ∧ it.cartId = c.id ∧ iv.id = it.id ∧ iv.cartId = c.id ∧
      iv.quantity = it.quantity) ∧
    (∀ c ∈ dbTwoCarts.carts, c.sessionId = "s" →
      ∀ it ∈ dbTwoCarts.cartItems, it.cartId = c.id →
      ∃ iv ∈ twoCartsView.items, iv.id = it.id ∧ iv.cartId = c.id)) :=
  ⟨by with_unfolding_all decide,
   getCart_latest_header_all_session_items dbTwoCarts "s" twoCartsView
     (by with_unfolding_all decide)⟩

end Shop
